import Mathlib

/-!
Verification development for the crawler agent of this repository.

The TypeScript sources embedded here are:
* `CrawlerAgent` (navigate / click / type / press / scroll / extract /
  screenshot / wait-for-navigation / initialize / close), whose methods guard
  on an `isInitialized` flag and wrap every driver call in a failure boundary
  returning an `AgentActionResult` envelope;
* `AIEnhancedAgent` (page-context capture, plan creation with a fixed fallback
  plan, element location with a heuristic selector fallback, the plan
  interpreter `executePlan`, and screenshot persistence `saveScreenshot`).

External effects (the browser driver, the reasoning service `@midscene/core`,
the filesystem and the clock) are modelled by an oracle structure `Env`: each
driver round-trip that can fault is an `Except String` value supplied by the
environment, and in-page scripts that only read the DOM are evaluated against
an abstract DOM `Env.dom : String → List Elem` (the `querySelectorAll`
semantics).  Every agent operation additionally returns the list of
browser-interface methods it invoked, so "no driver method is called" is a
statement about that trace.
-/

set_option autoImplicit false

namespace Crawler

/-- Bounding box of a DOM element, `getBoundingClientRect()`.  JS numbers are
modelled as exact rationals. -/
structure Rect where
  left : Rat
  top : Rat
  width : Rat
  height : Rat
deriving DecidableEq

/-- A viewport coordinate pair, the `Position` interface of the source. -/
structure Position where
  x : Rat
  y : Rat
deriving DecidableEq

/-- A DOM element as observed by the embedded in-page scripts: its tag name,
its `textContent` (absent for `null`) and its bounding box. -/
structure Elem where
  tagName : String
  textContent : Option String
  rect : Rect
deriving DecidableEq

/-- Value bound to one key by `extractData`: `null`, a single trimmed text, or
a list of trimmed texts. -/
inductive ExtractVal where
  | nullV : ExtractVal
  | strV : String → ExtractVal
  | listV : List String → ExtractVal
deriving DecidableEq

/-- The element payload carried in a locate result: either the opaque
descriptor returned by the reasoning service, or the
`{tagName, text, rect}` record built by the fallback page query. -/
inductive FoundElem where
  | fromService : String → FoundElem
  | fromDom : String → String → Rect → FoundElem
deriving DecidableEq

/-- Parameters of one plan step (`action.params`); all fields are optional in
the untyped plan objects, including the `optional` flag the interpreter
consults. -/
structure StepParams where
  element : Option String := none
  text : Option String := none
  selector : Option String := none
  optional : Option Bool := none
deriving DecidableEq

/-- One step of a plan, in the shape the spec declares:
`{type, params, optional?}`.  The interpreter reads only `type` and
`params`. -/
structure PlanStep where
  type : String
  params : Option StepParams := none
  optional : Option Bool := none
deriving DecidableEq

/-- A plan: an optional ordered list of steps (`plan.actions`). -/
structure Plan where
  actions : Option (List PlanStep) := none
deriving DecidableEq

/-- Result of the reasoning service locate capability
(`midsceneCore.AiLocateElement`): `parseResult?.elements` collapsed to a
plain list (absent ≃ empty) plus an optional bounding box. -/
structure AiLocateRes where
  elements : List String
  rect : Option Rect
deriving DecidableEq

/-- The page-context bundle built by `getPageContext`. -/
structure PageContext where
  screenshotBase64 : String
  width : Nat
  height : Nat
  tree : String
  title : String
  url : String
deriving DecidableEq

/-- Names of the browser-interface methods; each agent operation reports the
trace of the driver methods it invoked, in order. -/
inductive DCall where
  | cInit : DCall
  | cGoto : DCall
  | cClose : DCall
  | cShot : DCall
  | cEval : DCall
  | cDims : DCall
  | cClickAt : DCall
  | cType : DCall
  | cPress : DCall
  | cScroll : DCall
deriving DecidableEq

/-- The `data` payload of an action result.  `stepsD` carries the per-step
records pushed by `executePlan` (`{type, success, data?, error?}`), which
themselves embed payloads, hence the nested recursion. -/
inductive RData where
  | urlD : String → RData
  | shotD : String → RData
  | textsD : List String → RData
  | extractedD : List (String × ExtractVal) → RData
  | planD : Plan → RData
  | locatedD : FoundElem → Option Rect → Option Position → RData
  | clickedD : FoundElem → RData
  | inputD : String → FoundElem → RData
  | stepsD : List (String × Bool × Option RData × Option String) → RData

/-- One record of `executePlan`'s `results` array:
`(type, success, data?, error?)`. -/
abbrev StepRec := String × Bool × Option RData × Option String

/-- The `type` field of a step record. -/
def recType (r : StepRec) : String := r.1

/-- The `success` field of a step record. -/
def recSuccess (r : StepRec) : Bool := r.2.1

/-- The uniform result envelope `AgentActionResult`. -/
structure ActionResult where
  success : Bool
  error : Option String := none
  data : Option RData := none

/-- The step records held by an `executePlan` result (`data.actions`);
empty for any other payload. -/
def stepsOf : Option RData → List StepRec
  | some (.stepsD rs) => rs
  | _ => []

/-! ### JavaScript-semantics helpers -/

/-- Does `sub` occur at the head of `l`? -/
def listLeads : List Char → List Char → Bool
  | [], _ => true
  | _ :: _, [] => false
  | c :: cs, d :: ds => c = d && listLeads cs ds

/-- Does `sub` occur anywhere in `l`? -/
def listHas (sub : List Char) : List Char → Bool
  | [] => sub.isEmpty
  | l@(_ :: rest) => listLeads sub l || listHas sub rest

/-- JS `a.includes(b)` on strings: `b` occurs as a contiguous substring. -/
def jsIncludes (s sub : String) : Bool := listHas sub.data s.data

/-- JS `String.prototype.trim`: strip whitespace from both ends. -/
def jsTrim (s : String) : String :=
  ⟨((s.data.dropWhile Char.isWhitespace).reverse.dropWhile Char.isWhitespace).reverse⟩

/-- JS `String.prototype.toLowerCase` (character-wise). -/
def jsToLower (s : String) : String := ⟨s.data.map Char.toLower⟩

/-- JS template interpolation of a possibly-undefined string value. -/
def jsStr (v : Option String) : String := v.getD "undefined"

/-- JS `v || d` for string values: `undefined` and `""` are falsy. -/
def jsOrStr (v : Option String) (d : String) : String :=
  match v with
  | some t => if t = "" then d else t
  | none => d

/-- JS `v || d` for numbers: `undefined` and `0` are falsy. -/
def jsOrNat (v : Option Nat) (d : Nat) : Nat :=
  match v with
  | some n => if n = 0 then d else n
  | none => d

/-- JS truthiness of a possibly-undefined boolean (`undefined` is falsy). -/
def jsBool (v : Option Bool) : Bool := v.getD false

/-- JS truthiness of a possibly-undefined string (`undefined`/`""` falsy). -/
def jsTruthy (v : Option String) : Bool :=
  match v with
  | some t => t ≠ ""
  | none => false

/-- The character for decimal digit `d`. -/
def digitChar (d : Nat) : Char := Char.ofNat (48 + d)

/-- Most-significant-first decimal digit characters of `n`, with explicit
fuel so that the definition is structurally recursive. -/
def decChars : Nat → Nat → List Char
  | 0, _ => []
  | fuel + 1, n => if n = 0 then [] else decChars fuel (n / 10) ++ [digitChar (n % 10)]

/-- Decimal rendering of a natural number, the model of JS template
interpolation of `Date.now()` and of the screenshot counter. -/
def decStr (n : Nat) : String := if n = 0 then "0" else ⟨decChars n n⟩

/-- `path.join` (no normalization is needed for the paths at hand). -/
def pathJoin (a b : String) : String := a ++ "/" ++ b

/-! ### Agent configuration and state -/

/-- The options as passed to the `CrawlerAgent` constructor. -/
structure GivenOptions where
  browser : Option String := none
  headless : Option Bool := none
  timeout : Option Nat := none
  userAgent : Option String := none

/-- The effective options after the constructor's defaulting. -/
structure EffOptions where
  browser : String
  headless : Bool
  timeout : Nat
  userAgent : Option String

/-- The defaulting performed by the `CrawlerAgent` constructor:
`browser || 'playwright'`, `headless ?? false`, `timeout || 30000`. -/
def mkEffOptions (o : GivenOptions) : EffOptions where
  browser := jsOrStr o.browser "playwright"
  headless := o.headless.getD false
  timeout := jsOrNat o.timeout 30000
  userAgent := o.userAgent

/-- The mutable fields of an agent: the `isInitialized` flag of
`CrawlerAgent`, the `screenshotCounter` of `AIEnhancedAgent`, and a cursor
into the environment's clock stream (one tick per `Date.now()` call). -/
structure AgentState where
  isInitialized : Bool
  screenshotCounter : Nat
  timeIdx : Nat
deriving DecidableEq

/-- The state of a freshly constructed agent. -/
def freshState : AgentState := ⟨false, 0, 0⟩

/-- The oracle for everything outside the agent: each fallible driver
round-trip is an `Except String` response, the DOM is a `querySelectorAll`
function, the reasoning-service capabilities are optional functions
(feature detection), and the clock is a stream indexed by `timeIdx`. -/
structure Env where
  browserInitRes : Except String Unit
  uaEvalRes : Except String Unit
  hasPageField : Bool
  gotoRes : String → Except String Unit
  closeRes : Except String Unit
  shotRes : Except String String
  hrefRes : Except String String
  titleRes : Except String String
  dimsRes : Except String (Nat × Nat)
  treeRes : Except String String
  clickAtRes : Rat → Rat → Except String Unit
  typeRes : String → Except String Unit
  pressRes : String → Except String Unit
  scrollRes : Except String Unit
  dom : String → List Elem
  gateExists : Except String Unit
  gatePos : Except String Unit
  gateFocus : Except String Unit
  gateTexts : Except String Unit
  gateExtract : Except String Unit
  gateQuery : Except String Unit
  waitNavRes : Nat → Except String Bool
  planCap : Option (String → PageContext → Except String Plan)
  locateCap : Option (PageContext → String → Except String AiLocateRes)
  b64 : String → String
  mkdirOk : Bool
  writeOk : Bool
  now : Nat → Nat

/-! ### CrawlerAgent operations -/

/-- The result every guarded action returns when the agent is not
initialized. -/
def notInitRes : ActionResult := ⟨false, some "Browser not initialized", none⟩

/-- `CrawlerAgent.initialize`: start the driver, optionally apply the
user-agent override, set the flag; any fault is converted to a failed
result and the flag is left untouched. -/
def initAgent (o : EffOptions) (e : Env) (s : AgentState) :
    ActionResult × AgentState × List DCall :=
  match e.browserInitRes with
  | .error msg =>
      (⟨false, some ("Failed to initialize browser: " ++ msg), none⟩, s, [.cInit])
  | .ok _ =>
      if jsTruthy o.userAgent && e.hasPageField then
        match e.uaEvalRes with
        | .error msg =>
            (⟨false, some ("Failed to initialize browser: " ++ msg), none⟩, s,
              [.cInit, .cEval])
        | .ok _ =>
            (⟨true, none, none⟩, { s with isInitialized := true }, [.cInit, .cEval])
      else
        (⟨true, none, none⟩, { s with isInitialized := true }, [.cInit])

/-- `CrawlerAgent.getCurrentUrl`: evaluate `window.location.href`. -/
def getCurrentUrl (e : Env) : Except String String × List DCall :=
  (e.hrefRes, [.cEval])

/-- `CrawlerAgent.getPageTitle`: evaluate `document.title`. -/
def getPageTitle (e : Env) : Except String String × List DCall :=
  (e.titleRes, [.cEval])

/-- `CrawlerAgent.navigateTo`. -/
def navigateTo (e : Env) (s : AgentState) (url : String) :
    ActionResult × List DCall :=
  if !s.isInitialized then (notInitRes, [])
  else
    match e.gotoRes url with
    | .error msg =>
        (⟨false, some ("Failed to navigate to " ++ url ++ ": " ++ msg), none⟩, [.cGoto])
    | .ok _ =>
        match (getCurrentUrl e).1 with
        | .error msg =>
            (⟨false, some ("Failed to navigate to " ++ url ++ ": " ++ msg), none⟩,
              [.cGoto] ++ (getCurrentUrl e).2)
        | .ok u =>
            (⟨true, none, some (.urlD u)⟩, [.cGoto] ++ (getCurrentUrl e).2)

/-- `CrawlerAgent.clickElement`: existence check, position query, click at
the bounding-box center. -/
def clickElement (e : Env) (s : AgentState) (selector : String) :
    ActionResult × List DCall :=
  if !s.isInitialized then (notInitRes, [])
  else
    match e.gateExists with
    | .error msg =>
        (⟨false, some ("Failed to click element with selector \"" ++ selector
          ++ "\": " ++ msg), none⟩, [.cEval])
    | .ok _ =>
      if (e.dom selector).isEmpty then
        (⟨false, some ("Element with selector \"" ++ selector ++ "\" not found"),
          none⟩, [.cEval])
      else
        match e.gatePos with
        | .error msg =>
            (⟨false, some ("Failed to click element with selector \"" ++ selector
              ++ "\": " ++ msg), none⟩, [.cEval, .cEval])
        | .ok _ =>
          match (e.dom selector).head? with
          | none =>
              (⟨false, some ("Could not determine position of element with selector \""
                ++ selector ++ "\""), none⟩, [.cEval, .cEval])
          | some el =>
            let px := el.rect.left + el.rect.width / 2
            let py := el.rect.top + el.rect.height / 2
            match e.clickAtRes px py with
            | .error msg =>
                (⟨false, some ("Failed to click element with selector \"" ++ selector
                  ++ "\": " ++ msg), none⟩, [.cEval, .cEval, .cClickAt])
            | .ok _ => (⟨true, none, none⟩, [.cEval, .cEval, .cClickAt])

/-- `CrawlerAgent.typeText`: optional focus of a selector target, then
keyboard input. -/
def typeText (e : Env) (s : AgentState) (text : String) (selector : Option String) :
    ActionResult × List DCall :=
  if !s.isInitialized then (notInitRes, [])
  else
    match selector with
    | some sel =>
      match e.gateFocus with
      | .error msg =>
          (⟨false, some ("Failed to type text: " ++ msg), none⟩, [.cEval])
      | .ok _ =>
        if (e.dom sel).isEmpty then
          (⟨false, some ("Element with selector \"" ++ sel ++ "\" not found"), none⟩,
            [.cEval])
        else
          match e.typeRes text with
          | .error msg =>
              (⟨false, some ("Failed to type text: " ++ msg), none⟩, [.cEval, .cType])
          | .ok _ => (⟨true, none, none⟩, [.cEval, .cType])
    | none =>
      match e.typeRes text with
      | .error msg => (⟨false, some ("Failed to type text: " ++ msg), none⟩, [.cType])
      | .ok _ => (⟨true, none, none⟩, [.cType])

/-- `CrawlerAgent.pressKey`. -/
def pressKey (e : Env) (s : AgentState) (key : String) :
    ActionResult × List DCall :=
  if !s.isInitialized then (notInitRes, [])
  else
    match e.pressRes key with
    | .error msg =>
        (⟨false, some ("Failed to press key \"" ++ key ++ "\": " ++ msg), none⟩,
          [.cPress])
    | .ok _ => (⟨true, none, none⟩, [.cPress])

/-- Scroll directions. -/
inductive Direction where
  | up : Direction
  | down : Direction
  | left : Direction
  | right : Direction
deriving DecidableEq

/-- The string form of a scroll direction (for error messages). -/
def dirStr : Direction → String
  | .up => "up"
  | .down => "down"
  | .left => "left"
  | .right => "right"

/-- `CrawlerAgent.scroll`. -/
def scroll (e : Env) (s : AgentState) (direction : Direction) (_distance : Option Nat) :
    ActionResult × List DCall :=
  if !s.isInitialized then (notInitRes, [])
  else
    match e.scrollRes with
    | .error msg =>
        (⟨false, some ("Failed to scroll " ++ dirStr direction ++ ": " ++ msg), none⟩,
          [.cScroll])
    | .ok _ => (⟨true, none, none⟩, [.cScroll])

/-- The in-page script of `extractText`: the trimmed texts of all matches,
with missing and empty texts dropped by `filter(Boolean)`. -/
def extractTextVal (dom : String → List Elem) (selector : String) : List String :=
  (dom selector).filterMap fun el =>
    el.textContent.bind fun t =>
      let t2 := jsTrim t
      if t2 = "" then none else some t2

/-- `CrawlerAgent.extractText`. -/
def extractText (e : Env) (s : AgentState) (selector : String) :
    ActionResult × List DCall :=
  if !s.isInitialized then (notInitRes, [])
  else
    match e.gateTexts with
    | .error msg =>
        (⟨false, some ("Failed to extract text from \"" ++ selector ++ "\": " ++ msg),
          none⟩, [.cEval])
    | .ok _ =>
        (⟨true, none, some (.textsD (extractTextVal e.dom selector))⟩, [.cEval])

/-- The in-page script of `extractData`, per key: zero matches give `null`;
one match gives its trimmed text unless that is missing or empty (`|| null`);
several matches give the trimmed texts with missing and empty ones dropped
(`filter(Boolean)`). -/
def extractDataVal (dom : String → List Elem) (spec : List (String × String)) :
    List (String × ExtractVal) :=
  spec.map fun kv =>
    match dom kv.2 with
    | [] => (kv.1, .nullV)
    | [el] =>
        (kv.1,
          match el.textContent with
          | none => .nullV
          | some t => if jsTrim t = "" then .nullV else .strV (jsTrim t))
    | els =>
        (kv.1, .listV (els.filterMap fun el =>
          el.textContent.bind fun t =>
            if jsTrim t = "" then none else some (jsTrim t)))

/-- `CrawlerAgent.extractData`. -/
def extractData (e : Env) (s : AgentState) (spec : List (String × String)) :
    ActionResult × List DCall :=
  if !s.isInitialized then (notInitRes, [])
  else
    match e.gateExtract with
    | .error msg =>
        (⟨false, some ("Failed to extract data: " ++ msg), none⟩, [.cEval])
    | .ok _ =>
        (⟨true, none, some (.extractedD (extractDataVal e.dom spec))⟩, [.cEval])

/-- `CrawlerAgent.takeScreenshot`. -/
def takeScreenshot (e : Env) (s : AgentState) : ActionResult × List DCall :=
  if !s.isInitialized then (notInitRes, [])
  else
    match e.shotRes with
    | .error msg =>
        (⟨false, some ("Failed to take screenshot: " ++ msg), none⟩, [.cShot])
    | .ok buf => (⟨true, none, some (.shotD buf)⟩, [.cShot])

/-- `CrawlerAgent.waitForNavigation`: evaluates the bounded readiness wait in
the page, passing `timeout || this.options.timeout`; the script itself
applies a further `timeout || 30000` and resolves with whether the ready
state completed before the timer; the method ignores that boolean. -/
def waitForNavigation (o : EffOptions) (e : Env) (s : AgentState)
    (timeout : Option Nat) : ActionResult × List DCall :=
  if !s.isInitialized then (notInitRes, [])
  else
    let effT := jsOrNat timeout o.timeout
    match e.waitNavRes (jsOrNat (some effT) 30000) with
    | .error msg =>
        (⟨false, some ("Failed to wait for navigation: " ++ msg), none⟩, [.cEval])
    | .ok _ => (⟨true, none, none⟩, [.cEval])

/-- `CrawlerAgent.close`: a no-op unless initialized; otherwise closes the
driver (a fault propagates, leaving the flag set) and clears the flag. -/
def closeAgent (e : Env) (s : AgentState) :
    Except String Unit × AgentState × List DCall :=
  if s.isInitialized then
    match e.closeRes with
    | .error msg => (.error msg, s, [.cClose])
    | .ok _ => (.ok (), { s with isInitialized := false }, [.cClose])
  else (.ok (), s, [])

/-! ### AIEnhancedAgent operations -/

/-- The effective AI options after the `AIEnhancedAgent` constructor: the
object spread `...options` reinstates every property the caller passed, so
the defaults only apply to absent properties. -/
structure AiOptions where
  outputDir : String
  useAutonomousPlanning : Bool

/-- The `AIEnhancedAgent` constructor defaulting of the fields used by the
embedded operations (`outputDir || './crawler-ai-output'` followed by the
`...options` spread, `useAutonomousPlanning ?? true`). -/
def mkAiOptions (outputDir : Option String) (useAutonomousPlanning : Option Bool) :
    AiOptions where
  outputDir := match outputDir with
    | some v => v
    | none => "./crawler-ai-output"
  useAutonomousPlanning := useAutonomousPlanning.getD true

/-- `AIEnhancedAgent.initialize`: delegate to the base agent, then reset the
screenshot counter. -/
def aiInitAgent (o : EffOptions) (e : Env) (s : AgentState) :
    ActionResult × AgentState × List DCall :=
  match initAgent o e s with
  | (r, s1, tr) =>
    if r.success then (⟨true, none, none⟩, { s1 with screenshotCounter := 0 }, tr)
    else (r, s1, tr)

/-- `AIEnhancedAgent.getPageContext`: screenshot (a failure is rethrown with
a `Failed to take screenshot:` message), dimensions, title, URL and the
shallow DOM tree; any fault aborts construction. -/
def getPageContext (e : Env) (s : AgentState) :
    Except String PageContext × List DCall :=
  match takeScreenshot e s with
  | (r, tr) =>
    if r.success then
      let buf := match r.data with
        | some (.shotD b) => b
        | _ => ""
      let shotB64 := "data:image/jpeg;base64," ++ e.b64 buf
      match e.dimsRes with
      | .error m => (.error m, tr ++ [.cDims])
      | .ok wh =>
        match (getPageTitle e).1 with
        | .error m => (.error m, tr ++ [.cDims] ++ (getPageTitle e).2)
        | .ok ttl =>
          match (getCurrentUrl e).1 with
          | .error m =>
              (.error m, tr ++ [.cDims] ++ (getPageTitle e).2 ++ (getCurrentUrl e).2)
          | .ok u =>
            match e.treeRes with
            | .error m =>
                (.error m,
                  tr ++ [.cDims] ++ (getPageTitle e).2 ++ (getCurrentUrl e).2 ++ [.cEval])
            | .ok tree =>
                (.ok ⟨shotB64, wh.1, wh.2, tree, ttl, u⟩,
                  tr ++ [.cDims] ++ (getPageTitle e).2 ++ (getCurrentUrl e).2 ++ [.cEval])
    else
      (.error ("Failed to take screenshot: " ++ jsStr r.error), tr)

/-- The fixed fallback plan returned when the planning capability is absent:
a single extract step over the common content selectors. -/
def mockPlan : Plan :=
  ⟨some [⟨"extract", some ⟨none, none, some "h1, h2, .content, article", none⟩, none⟩]⟩

/-- `AIEnhancedAgent.createPlanForPage`: build a context, then either call
the planning capability or fall back to `mockPlan`; any fault is converted
to a failed result. -/
def createPlanForPage (e : Env) (s : AgentState) (instruction : String) :
    ActionResult × List DCall :=
  match getPageContext e s with
  | (.error m, tr) =>
      (⟨false, some ("Failed to create plan: " ++ m), none⟩, tr)
  | (.ok ctx, tr) =>
    match e.planCap with
    | some f =>
      match f instruction ctx with
      | .error m => (⟨false, some ("Failed to create plan: " ++ m), none⟩, tr)
      | .ok p => (⟨true, none, some (.planD p)⟩, tr)
    | none => (⟨true, none, some (.planD mockPlan)⟩, tr)

/-- `AIEnhancedAgent.navigateTo`: delegate to the base agent; if it succeeded
and autonomous planning is enabled, opportunistically create a plan, ignoring
its outcome. -/
def aiNavigateTo (aio : AiOptions) (e : Env) (s : AgentState) (url : String) :
    ActionResult × List DCall :=
  match navigateTo e s url with
  | (r, tr) =>
    if !r.success then (r, tr)
    else if aio.useAutonomousPlanning then
      match createPlanForPage e s
          "Analyze this page and find the most important information" with
      | (_, tr2) => (r, tr ++ tr2)
    else (r, tr)

/-- The selector for button-like descriptions in the heuristic fallback. -/
def btnSelector : String := "button, [role=\"button\"], .btn, a.button"

/-- The selector for input-like descriptions in the heuristic fallback. -/
def inputSelector : String := "input, textarea"

/-- The free-text containment selector used when no keyword matches. -/
def containsSelector (d : String) : String := "*:contains(\"" ++ d ++ "\")"

/-- The heuristic keyword classification of a description into a selector,
checked in source order on the lower-cased description. -/
def classifyDescription (d : String) : String :=
  let low := jsToLower d
  if jsIncludes low "button" then btnSelector
  else if jsIncludes low "input" || jsIncludes low "text" || jsIncludes low "field" then
    inputSelector
  else if jsIncludes low "link" then "a"
  else containsSelector d

/-- A record returned by the fallback page query:
`{tagName (lower-cased), text (trimmed, '' when missing), rect}`. -/
structure QueryEl where
  tagName : String
  text : String
  rect : Rect
deriving DecidableEq

/-- The in-page script of the fallback query: all matches of the selector
mapped to `QueryEl` records. -/
def queryEls (dom : String → List Elem) (selector : String) : List QueryEl :=
  (dom selector).map fun el =>
    ⟨jsToLower el.tagName, (el.textContent.map jsTrim).getD "", el.rect⟩

/-- `AIEnhancedAgent.locateElement`: build a context, then either the
reasoning-service locate capability (first element, center of its rect when
present) or the heuristic selector fallback (first page match, center of its
rect); zero matches fail naming the description; any fault is converted to a
failed result. -/
def locateElement (e : Env) (s : AgentState) (description : String) :
    ActionResult × List DCall :=
  match getPageContext e s with
  | (.error m, tr) =>
      (⟨false, some ("Failed to locate element \"" ++ description ++ "\": " ++ m),
        none⟩, tr)
  | (.ok ctx, tr) =>
    match e.locateCap with
    | some f =>
      match f ctx description with
      | .error m =>
          (⟨false, some ("Failed to locate element \"" ++ description ++ "\": " ++ m),
            none⟩, tr)
      | .ok lr =>
        if lr.elements.isEmpty then
          (⟨false, some ("Could not find element: " ++ description), none⟩, tr)
        else
          let el := FoundElem.fromService (lr.elements.headD "")
          match lr.rect with
          | some r =>
              (⟨true, none, some (.locatedD el (some r)
                (some ⟨r.left + r.width / 2, r.top + r.height / 2⟩))⟩, tr)
          | none => (⟨true, none, some (.locatedD el none none)⟩, tr)
    | none =>
      let selector := classifyDescription description
      match e.gateQuery with
      | .error m =>
          (⟨false, some ("Failed to locate element \"" ++ description ++ "\": " ++ m),
            none⟩, tr ++ [.cEval])
      | .ok _ =>
        match queryEls e.dom selector with
        | [] =>
            (⟨false, some ("Could not find element: " ++ description), none⟩,
              tr ++ [.cEval])
        | q :: _ =>
            (⟨true, none, some (.locatedD (.fromDom q.tagName q.text q.rect)
              (some q.rect)
              (some ⟨q.rect.left + q.rect.width / 2, q.rect.top + q.rect.height / 2⟩))⟩,
              tr ++ [.cEval])

/-- `AIEnhancedAgent.clickOnElement`: locate, then click at the located
position; a located element without a position is a distinct failure. -/
def clickOnElement (e : Env) (s : AgentState) (description : String) :
    ActionResult × List DCall :=
  match locateElement e s description with
  | (r, tr) =>
    if r.success then
      match r.data with
      | some (.locatedD el _ (some pos)) =>
        match e.clickAtRes pos.x pos.y with
        | .error m =>
            (⟨false, some ("Failed to click on element \"" ++ description ++ "\": " ++ m),
              none⟩, tr ++ [.cClickAt])
        | .ok _ => (⟨true, none, some (.clickedD el)⟩, tr ++ [.cClickAt])
      | _ =>
          (⟨false, some ("Located element \"" ++ description
            ++ "\" but could not determine position for clicking"), none⟩, tr)
    else (r, tr)

/-- `AIEnhancedAgent.inputTextIntoElement`: locate, click to focus, then type. -/
def inputTextIntoElement (e : Env) (s : AgentState) (description text : String) :
    ActionResult × List DCall :=
  match locateElement e s description with
  | (r, tr) =>
    if r.success then
      match r.data with
      | some (.locatedD el _ (some pos)) =>
        match e.clickAtRes pos.x pos.y with
        | .error m =>
            (⟨false, some ("Failed to input text into element \"" ++ description
              ++ "\": " ++ m), none⟩, tr ++ [.cClickAt])
        | .ok _ =>
          match e.typeRes text with
          | .error m =>
              (⟨false, some ("Failed to input text into element \"" ++ description
                ++ "\": " ++ m), none⟩, tr ++ [.cClickAt, .cType])
          | .ok _ => (⟨true, none, some (.inputD text el)⟩, tr ++ [.cClickAt, .cType])
      | _ =>
          (⟨false, some ("Located element \"" ++ description
            ++ "\" but could not determine position for clicking"), none⟩, tr)
    else (r, tr)

/-- The parameters used when a step carries none (`action.params || {}`). -/
def defaultParams : StepParams := ⟨none, none, none, none⟩

/-- One iteration of the `executePlan` switch: dispatch on `action.type`,
producing the record pushed onto `results`; unsupported types are an
immediate per-step failure without any driver call. -/
def runPlanStep (e : Env) (s : AgentState) (a : PlanStep) : StepRec × List DCall :=
  let p := a.params.getD defaultParams
  if a.type = "click" then
    match clickOnElement e s (jsStr p.element) with
    | (r, tr) => (("click", r.success, r.data, r.error), tr)
  else if a.type = "input" then
    match inputTextIntoElement e s (jsStr p.element) (jsStr p.text) with
    | (r, tr) => (("input", r.success, r.data, r.error), tr)
  else if a.type = "extract" then
    match extractText e s (jsOrStr p.selector "body") with
    | (r, tr) => (("extract", r.success, r.data, r.error), tr)
  else ((a.type, false, none, some ("Unsupported action type: " ++ a.type)), [])

/-- The `executePlan` loop: record each step's outcome in order and break
after a failed step whose `params.optional` is not truthy. -/
def execPlanSteps (e : Env) (s : AgentState) : List PlanStep → List StepRec × List DCall
  | [] => ([], [])
  | a :: rest =>
    let p := a.params.getD defaultParams
    match runPlanStep e s a with
    | (r, tr) =>
      if !recSuccess r && !jsBool p.optional then ([r], tr)
      else
        match execPlanSteps e s rest with
        | (rs, tr2) => (r :: rs, tr ++ tr2)

/-- `AIEnhancedAgent.executePlan`: interpret `plan.actions || []` and report
overall success exactly when every recorded step succeeded. -/
def executePlan (e : Env) (s : AgentState) (plan : Plan) : ActionResult × List DCall :=
  let actions := plan.actions.getD []
  match execPlanSteps e s actions with
  | (results, tr) => (⟨results.all recSuccess, none, some (.stepsD results)⟩, tr)

/-- `AIEnhancedAgent.saveScreenshot`: under `<outputDir>/screenshots`, write
`screenshot-<Date.now()>-<++counter>.jpg`; an unset output directory or a
filesystem fault yields `''` (a directory-creation fault occurs before the
clock is read and the counter incremented, a write fault after). -/
def saveScreenshot (outputDir : String) (e : Env) (s : AgentState) :
    String × AgentState :=
  if outputDir = "" then ("", s)
  else if !e.mkdirOk then ("", s)
  else
    let t := e.now s.timeIdx
    let c := s.screenshotCounter + 1
    let s1 := { s with screenshotCounter := c, timeIdx := s.timeIdx + 1 }
    let filename := "screenshot-" ++ decStr t ++ "-" ++ decStr c ++ ".jpg"
    let filePath := pathJoin (pathJoin outputDir "screenshots") filename
    if e.writeOk then (filePath, s1) else ("", s1)

/-! ### Specification-side definitions

These follow the wording of the spec (amended where a counterexample forces
it) and are compared with the source-derived operations above. -/

/-- Modelled from the spec (amended): per-key tri-state resolution of an
extraction selector — zero matches give `null`; exactly one match gives its
trimmed text when the element has a text and the trimmed text is non-empty,
otherwise `null`; more than one match gives the ordered sequence of the
trimmed texts of those matches whose trimmed text is present and non-empty. -/
def resolveKey (dom : String → List Elem) (selector : String) : ExtractVal :=
  let found := dom selector
  if found.length = 0 then .nullV
  else if found.length = 1 then
    match found.head?.bind fun el => el.textContent.map jsTrim with
    | some t => if t = "" then .nullV else .strV t
    | none => .nullV
  else
    .listV (found.filterMap fun el =>
      (el.textContent.map jsTrim).bind fun t =>
        if t = "" then none else some t)

/-- Modelled from the spec (amended): the plan-interpreter semantics —
attempt the steps in order recording each outcome, and stop right after a
failed step whose `params.optional` flag is not set. -/
def specExec (outcome : PlanStep → StepRec) : List PlanStep → List StepRec
  | [] => []
  | a :: rest =>
    let r := outcome a
    if recSuccess r = false ∧ jsBool ((a.params.getD defaultParams).optional) = false
    then [r]
    else r :: specExec outcome rest

/-! ### Concrete environments and states for witnesses and counterexamples -/

/-- An environment in which every external operation succeeds, the DOM is
empty, both reasoning-service capabilities are absent, and the clock always
reads 1000. -/
def envOk : Env where
  browserInitRes := .ok ()
  uaEvalRes := .ok ()
  hasPageField := true
  gotoRes := fun _ => .ok ()
  closeRes := .ok ()
  shotRes := .ok "SHOT"
  hrefRes := .ok "http://example.test/"
  titleRes := .ok "Example"
  dimsRes := .ok (1280, 800)
  treeRes := .ok "tree"
  clickAtRes := fun _ _ => .ok ()
  typeRes := fun _ => .ok ()
  pressRes := fun _ => .ok ()
  scrollRes := .ok ()
  dom := fun _ => []
  gateExists := .ok ()
  gatePos := .ok ()
  gateFocus := .ok ()
  gateTexts := .ok ()
  gateExtract := .ok ()
  gateQuery := .ok ()
  waitNavRes := fun _ => .ok false
  planCap := none
  locateCap := none
  b64 := fun b => b
  mkdirOk := true
  writeOk := true
  now := fun _ => 1000

/-- The effective options of an agent constructed with no options. -/
def defOpts : EffOptions := mkEffOptions {}

/-- The state of an initialized agent. -/
def initState : AgentState := ⟨true, 0, 0⟩

/-- The page context `getPageContext` produces under `envOk`. -/
def ctxOk : PageContext :=
  ⟨"data:image/jpeg;base64,SHOT", 1280, 800, "tree", "Example", "http://example.test/"⟩

/-! ### Claim C1 -/

/-- C1: every action-agent operation (`navigateTo`, `clickElement`,
`typeText`, `pressKey`, `scroll`, `extractText`, `extractData`,
`takeScreenshot`, `waitForNavigation`) invoked while the agent is
uninitialized returns exactly `{success: false, error: "Browser not
initialized"}` and invokes no browser-interface method, for every
environment and every argument. -/
theorem c1_uninitialized_actions (e : Env) (s : AgentState)
    (h : s.isInitialized = false) :
    (∀ url, navigateTo e s url = (notInitRes, [])) ∧
    (∀ sel, clickElement e s sel = (notInitRes, [])) ∧
    (∀ text sel, typeText e s text sel = (notInitRes, [])) ∧
    (∀ key, pressKey e s key = (notInitRes, [])) ∧
    (∀ d dist, scroll e s d dist = (notInitRes, [])) ∧
    (∀ sel, extractText e s sel = (notInitRes, [])) ∧
    (∀ spec, extractData e s spec = (notInitRes, [])) ∧
    (takeScreenshot e s = (notInitRes, [])) ∧
    (∀ o t, waitForNavigation o e s t = (notInitRes, [])) := by
  refine ⟨?_, ?_, ?_, ?_, ?_, ?_, ?_, ?_, ?_⟩ <;> intros <;>
    simp [navigateTo, clickElement, typeText, pressKey, scroll, extractText,
      extractData, takeScreenshot, waitForNavigation, h]

/-- C1 witness: a freshly constructed agent rejects `navigateTo` with the
`Browser not initialized` envelope and no driver call. -/
theorem c1_uninitialized_actions_witness :
    navigateTo envOk freshState "https://example.test" = (notInitRes, []) :=
  (c1_uninitialized_actions envOk freshState rfl).1 "https://example.test"

/-! ### Claim C7 -/

/-- C7: if anything during `initialize()` fails, the agent stays
uninitialized and the returned failure carries the underlying message behind
the `Failed to initialize browser:` annotation; on success the agent is
initialized and the result is a bare success envelope. -/
theorem c7_initialize_boundary (o : EffOptions) (e : Env) (s : AgentState)
    (h : s.isInitialized = false) :
    ((initAgent o e s).1.success = false →
      (initAgent o e s).2.1.isInitialized = false ∧
      ∃ m, (initAgent o e s).1.error = some ("Failed to initialize browser: " ++ m)) ∧
    ((initAgent o e s).1.success = true →
      (initAgent o e s).2.1.isInitialized = true ∧
      (initAgent o e s).1 = ⟨true, none, none⟩) := by
  rcases hb : e.browserInitRes with msg | u
  · constructor
    · intro _
      refine ⟨?_, msg, ?_⟩ <;> simp [initAgent, hb, h]
    · intro hs
      simp [initAgent, hb] at hs
  · by_cases hua : (jsTruthy o.userAgent && e.hasPageField) = true
    · rcases hu : e.uaEvalRes with msg | u2
      · constructor
        · intro _
          refine ⟨?_, msg, ?_⟩ <;> simp [initAgent, hb, hua, hu, h]
        · intro hs
          simp [initAgent, hb, hua, hu] at hs
      · constructor
        · intro hs
          simp [initAgent, hb, hua, hu] at hs
        · intro _
          constructor <;> simp [initAgent, hb, hua, hu]
    · constructor
      · intro hs
        simp [initAgent, hb, hua] at hs
      · intro _
        constructor <;> simp [initAgent, hb, hua]

/-- C7 witness: with a driver whose start fails, `initialize()` on a fresh
agent leaves it uninitialized and reports the wrapped message. -/
theorem c7_initialize_boundary_witness :
    (initAgent defOpts { envOk with browserInitRes := .error "boom" } freshState).2.1.isInitialized
        = false ∧
    ∃ m, (initAgent defOpts { envOk with browserInitRes := .error "boom" } freshState).1.error
        = some ("Failed to initialize browser: " ++ m) :=
  (c7_initialize_boundary defOpts { envOk with browserInitRes := .error "boom" }
    freshState rfl).1 rfl

/-! ### Claim C8 -/

/-- C8: `waitForNavigation(timeout)` on an initialized agent returns a bare
`{success: true}` envelope whatever the page's readiness outcome `b` is — in
particular when the ready state never reaches complete (`b = false`) the
expiry of the bounded wait is not reported as a failure — and the timeout
handed to the page is `timeout` falling back to the agent's configured
timeout (`jsOrNat timeout o.timeout`), the script adding its own final
`|| 30000` fallback. -/
theorem c8_wait_for_navigation (o : EffOptions) (e : Env) (s : AgentState)
    (t : Option Nat) (b : Bool) (h : s.isInitialized = true)
    (hw : e.waitNavRes (jsOrNat (some (jsOrNat t o.timeout)) 30000) = .ok b) :
    waitForNavigation o e s t = (⟨true, none, none⟩, [.cEval]) ∧
    jsOrNat none o.timeout = o.timeout := by
  constructor
  · simp [waitForNavigation, h, hw]
  · rfl

/-- C8 witness: `waitForNavigation(100)` on a page whose ready state never
completes (`envOk` resolves the wait with `false`) returns success. -/
theorem c8_wait_for_navigation_witness :
    waitForNavigation defOpts envOk initState (some 100) = (⟨true, none, none⟩, [.cEval]) :=
  (c8_wait_for_navigation defOpts envOk initState (some 100) false rfl rfl).1

/-! ### Claim C10 -/

/-- C10: a plan whose `actions` field is absent or empty executes to
`{success: true, data: {actions: []}}` with no driver call and no step
record. -/
theorem c10_empty_plan (e : Env) (s : AgentState) (plan : Plan)
    (h : plan.actions = none ∨ plan.actions = some []) :
    executePlan e s plan = (⟨true, none, some (.stepsD [])⟩, []) := by
  rcases h with h | h <;> simp [executePlan, execPlanSteps, h]

/-- C10 witness: the plan `{}` (no `actions` field) succeeds vacuously. -/
theorem c10_empty_plan_witness :
    executePlan envOk initState ⟨none⟩ = (⟨true, none, some (.stepsD [])⟩, []) :=
  c10_empty_plan envOk initState ⟨none⟩ (Or.inl rfl)

/-! ### Claim C3 -/

/-- The per-key resolution of the `extractData` script, restated by the
shape of the match list. -/
theorem resolveKey_shape (dom : String → List Elem) (sel : String) :
    resolveKey dom sel =
      match dom sel with
      | [] => .nullV
      | [el] =>
        match el.textContent with
        | none => .nullV
        | some t => if jsTrim t = "" then .nullV else .strV (jsTrim t)
      | els => .listV (els.filterMap fun el =>
          el.textContent.bind fun t =>
            if jsTrim t = "" then none else some (jsTrim t)) := by
  rcases hd : dom sel with _ | ⟨el, rest⟩
  · simp [resolveKey, hd]
  · rcases rest with _ | ⟨el2, rest2⟩
    · simp only [resolveKey, hd]
      rcases ht : el.textContent with _ | t <;> simp [ht]
    · simp only [resolveKey, hd]
      simp only [List.length_cons, List.length_nil]
      norm_num
      congr 1
      funext el3
      cases el3.textContent <;> simp

/-- The `extractData` script computes exactly the per-key resolution
`resolveKey`, key by key. -/
theorem extractDataVal_eq_resolve (dom : String → List Elem)
    (spec : List (String × String)) :
    extractDataVal dom spec = spec.map fun kv => (kv.1, resolveKey dom kv.2) := by
  unfold extractDataVal
  congr 1
  funext kv
  rw [resolveKey_shape]
  rcases dom kv.2 with _ | ⟨el, _ | ⟨el2, rest⟩⟩ <;> rfl

/-- C3 (amended): on an initialized agent with the extraction round-trip up,
`extractData` succeeds and binds every key, independently, to the tri-state
resolution of its selector — zero matches give `null`, one match gives its
non-empty trimmed text or else `null`, several matches give the ordered
sequence of the present, non-empty trimmed texts. -/
theorem c3_extract_structured (e : Env) (s : AgentState)
    (spec : List (String × String)) (h : s.isInitialized = true)
    (hg : e.gateExtract = .ok ()) :
    extractData e s spec =
      (⟨true, none,
        some (.extractedD (spec.map fun kv => (kv.1, resolveKey e.dom kv.2)))⟩,
        [.cEval]) := by
  simp [extractData, h, hg, extractDataVal_eq_resolve]

/-- C3 witness: a concrete extraction under `envOk`. -/
theorem c3_extract_structured_witness :
    extractData envOk initState [("title", "h1")] =
      (⟨true, none,
        some (.extractedD ([("title", "h1")].map fun kv =>
          (kv.1, resolveKey envOk.dom kv.2)))⟩, [.cEval]) :=
  c3_extract_structured envOk initState [("title", "h1")] rfl rfl

/-- A DOM in which selector `p` matches exactly one element whose text is
whitespace only. -/
def envWsText : Env :=
  { envOk with
    dom := fun sel => if sel = "p" then [⟨"p", some "  ", ⟨0, 0, 0, 0⟩⟩] else [] }

/-- C3 counterexample: with exactly one match whose text trims to the empty
string, `extractData` binds the key to `null`, not to the trimmed text as a
string — the claim's "exactly one match yields that match's trimmed text as
a string" fails at this input. -/
theorem c3_cex :
    extractData envWsText initState [("k", "p")] =
      (⟨true, none, some (.extractedD [("k", .nullV)])⟩, [.cEval]) ∧
    (envWsText.dom "p").length = 1 ∧
    jsTrim "  " = "" ∧
    ExtractVal.nullV ≠ ExtractVal.strV (jsTrim "  ") :=
  ⟨rfl, rfl, rfl, by decide⟩

/-! ### Claim C4 -/

/-- C4 (amended): `createPlanForPage` never throws — every outcome is an
`ActionResult` — and, when context construction succeeds, it returns a plan
in a success envelope both on the service path (when the planning call
succeeds) and on the fallback path (always, with the fixed `mockPlan`); a
context-construction failure or a failing planning call is returned as a
failed envelope. -/
theorem c4_create_plan (e : Env) (s : AgentState) (instr : String) :
    (∀ m, (getPageContext e s).1 = .error m →
      (createPlanForPage e s instr).1 =
        ⟨false, some ("Failed to create plan: " ++ m), none⟩) ∧
    (∀ ctx, (getPageContext e s).1 = .ok ctx →
      (e.planCap = none →
        (createPlanForPage e s instr).1 = ⟨true, none, some (.planD mockPlan)⟩) ∧
      (∀ f, e.planCap = some f →
        (∀ p, f instr ctx = .ok p →
          (createPlanForPage e s instr).1 = ⟨true, none, some (.planD p)⟩) ∧
        (∀ m, f instr ctx = .error m →
          (createPlanForPage e s instr).1 =
            ⟨false, some ("Failed to create plan: " ++ m), none⟩))) := by
  rcases hP : getPageContext e s with ⟨res, trc⟩
  constructor
  · intro m hm
    have hres : res = .error m := by simpa [hP] using hm
    subst hres
    simp [createPlanForPage, hP]
  · intro ctx hctx
    have hres : res = .ok ctx := by simpa [hP] using hctx
    subst hres
    constructor
    · intro hcap
      simp [createPlanForPage, hP, hcap]
    · intro f hcap
      constructor
      · intro p hp
        simp [createPlanForPage, hP, hcap, hp]
      · intro m hm
        simp [createPlanForPage, hP, hcap, hm]

/-- C4 witness: with the planning capability absent and a healthy page,
`createPlanForPage` returns the fixed fallback plan in a success envelope. -/
theorem c4_create_plan_witness :
    (createPlanForPage envOk initState "go").1 = ⟨true, none, some (.planD mockPlan)⟩ :=
  ((c4_create_plan envOk initState "go").2 ctxOk rfl).1 rfl

/-- An environment whose screenshot round-trip fails. -/
def envShotFail : Env := { envOk with shotRes := .error "net down" }

/-- C4 counterexample: when taking the screenshot fails, `createPlanForPage`
returns a failed envelope with no plan — refuting the claim that for every
page state the operation returns a plan wrapped in a success result. -/
theorem c4_cex :
    (createPlanForPage envShotFail initState "Analyze").1.success = false ∧
    (createPlanForPage envShotFail initState "Analyze").1.data = none :=
  ⟨rfl, rfl⟩

/-! ### Claim C5 -/

/-- C5: with the locate capability absent and a healthy page context, the
heuristic fallback of `locateElement` classifies the description by keyword
in source order (`button`; then `input`/`text`/`field`; then `link`; else
the free-text containment selector), queries the page, fails naming the
description on zero matches, and otherwise succeeds with the first match and
the center of its bounding box as position. -/
theorem c5_locate_fallback (e : Env) (s : AgentState) (d : String)
    (ctx : PageContext) (hcap : e.locateCap = none)
    (hctx : (getPageContext e s).1 = Except.ok ctx) (hg : e.gateQuery = .ok ()) :
    (queryEls e.dom (classifyDescription d) = [] →
      (locateElement e s d).1 = ⟨false, some ("Could not find element: " ++ d), none⟩) ∧
    (∀ q qs, queryEls e.dom (classifyDescription d) = q :: qs →
      (locateElement e s d).1 =
        ⟨true, none, some (.locatedD (.fromDom q.tagName q.text q.rect) (some q.rect)
          (some ⟨q.rect.left + q.rect.width / 2, q.rect.top + q.rect.height / 2⟩))⟩) ∧
    (jsIncludes (jsToLower d) "button" = true → classifyDescription d = btnSelector) ∧
    (jsIncludes (jsToLower d) "button" = false →
      (jsIncludes (jsToLower d) "input" || jsIncludes (jsToLower d) "text"
        || jsIncludes (jsToLower d) "field") = true →
      classifyDescription d = inputSelector) ∧
    (jsIncludes (jsToLower d) "button" = false →
      (jsIncludes (jsToLower d) "input" || jsIncludes (jsToLower d) "text"
        || jsIncludes (jsToLower d) "field") = false →
      jsIncludes (jsToLower d) "link" = true → classifyDescription d = "a") ∧
    (jsIncludes (jsToLower d) "button" = false →
      (jsIncludes (jsToLower d) "input" || jsIncludes (jsToLower d) "text"
        || jsIncludes (jsToLower d) "field") = false →
      jsIncludes (jsToLower d) "link" = false →
      classifyDescription d = containsSelector d) := by
  rcases hP : getPageContext e s with ⟨res, trc⟩
  have hres : res = .ok ctx := by simpa [hP] using hctx
  subst hres
  refine ⟨?_, ?_, ?_, ?_, ?_, ?_⟩
  · intro hq
    simp [locateElement, hP, hcap, hg, hq]
  · intro q qs hq
    simp [locateElement, hP, hcap, hg, hq]
  · intro h1
    simp [classifyDescription, h1]
  · intro h1 h2
    simp [classifyDescription, h1, h2]
  · intro h1 h2 h3
    simp [classifyDescription, h1, h2, h3]
  · intro h1 h2 h3
    simp [classifyDescription, h1, h2, h3]

/-- A DOM containing one button element, matched by the heuristic button
selector. -/
def envBtn : Env :=
  { envOk with
    dom := fun sel =>
      if sel = btnSelector then [⟨"BUTTON", some "Search", ⟨10, 20, 100, 40⟩⟩] else [] }

/-- C5 witness: locating `"search button"` without the reasoning service
succeeds via the button selector, at the center of the button's box. -/
theorem c5_locate_fallback_witness :
    (locateElement envBtn initState "search button").1 =
      ⟨true, none, some (.locatedD (.fromDom "button" "Search" ⟨10, 20, 100, 40⟩)
        (some ⟨10, 20, 100, 40⟩) (some ⟨10 + 100 / 2, 20 + 40 / 2⟩))⟩ :=
  (c5_locate_fallback envBtn initState "search button" ctxOk rfl rfl rfl).2.1
    ⟨"button", "Search", ⟨10, 20, 100, 40⟩⟩ [] rfl

/-! ### Claim C6 -/

/-- C6 counterexample: on an agent initialized under `envOk`, calling
`close()` and then `initialize()` again returns the agent to the initialized
state — refuting the claim that no sequence of operations after `close()`
reaches `Initialized` again. -/
theorem c6_cex :
    (initAgent defOpts envOk freshState).2.1.isInitialized = true ∧
    (closeAgent envOk (initAgent defOpts envOk freshState).2.1).2.1.isInitialized = false ∧
    (initAgent defOpts envOk
      (closeAgent envOk (initAgent defOpts envOk freshState).2.1).2.1).2.1.isInitialized
      = true :=
  ⟨rfl, rfl, rfl⟩

/-- C6 (amended): the lifecycle is the two-state machine of the
`isInitialized` flag — `close()` on a never-initialized agent is a no-op
performing no driver call; `close()` on an initialized agent (with the
driver close succeeding) returns it to the uninitialized state, after which
a second `close()` is a no-op (idempotent-safe); and any successful
`initialize()` — including one after a close — leaves the agent
initialized. -/
theorem c6_lifecycle (o : EffOptions) (e : Env) (s : AgentState) :
    (s.isInitialized = false → closeAgent e s = (.ok (), s, [])) ∧
    (s.isInitialized = true → e.closeRes = .ok () →
      (closeAgent e s).2.1.isInitialized = false ∧
      closeAgent e (closeAgent e s).2.1 = (.ok (), (closeAgent e s).2.1, [])) ∧
    ((initAgent o e s).1.success = true → (initAgent o e s).2.1.isInitialized = true) := by
  refine ⟨?_, ?_, ?_⟩
  · intro h
    simp [closeAgent, h]
  · intro h hc
    constructor
    · simp [closeAgent, h, hc]
    · simp [closeAgent, h, hc]
  · intro hs
    rcases hb : e.browserInitRes with m | u
    · simp [initAgent, hb] at hs
    · by_cases hua : (jsTruthy o.userAgent && e.hasPageField) = true
      · rcases hu : e.uaEvalRes with m | u2
        · simp [initAgent, hb, hua, hu] at hs
        · simp [initAgent, hb, hua, hu]
      · simp [initAgent, hb, hua]

/-- C6 witness: `close()` on a never-initialized agent is a no-op with no
driver call. -/
theorem c6_lifecycle_witness :
    closeAgent envOk freshState = (.ok (), freshState, []) :=
  (c6_lifecycle defOpts envOk freshState).1 rfl

/-! ### Claim C2 -/

/-- Every step record carries the type of the dispatched step. -/
theorem runPlanStep_type (e : Env) (s : AgentState) (a : PlanStep) :
    recType (runPlanStep e s a).1 = a.type := by
  by_cases h1 : a.type = "click"
  · simp [runPlanStep, h1, recType]
  · by_cases h2 : a.type = "input"
    · simp [runPlanStep, h1, h2, recType]
    · by_cases h3 : a.type = "extract"
      · simp [runPlanStep, h1, h2, h3, recType]
      · simp [runPlanStep, h1, h2, h3, recType]

/-- The interpreter loop computes exactly the spec-side semantics
`specExec` applied to the per-step outcomes. -/
theorem execPlanSteps_eq_specExec (e : Env) (s : AgentState) :
    ∀ acts : List PlanStep,
      (execPlanSteps e s acts).1 = specExec (fun a => (runPlanStep e s a).1) acts := by
  intro acts
  induction acts with
  | nil => rfl
  | cons a rest ih =>
    rcases hr : runPlanStep e s a with ⟨r, tr⟩
    rcases hrest : execPlanSteps e s rest with ⟨rs, tr2⟩
    by_cases hc :
        (!recSuccess r && !jsBool ((a.params.getD defaultParams).optional)) = true
    · have hc2 : recSuccess r = false ∧
          jsBool ((a.params.getD defaultParams).optional) = false := by
        simpa [Bool.and_eq_true, Bool.not_eq_true'] using hc
      simp [execPlanSteps, specExec, hr, hc, hc2]
    · have hc2 : ¬ (recSuccess r = false ∧
          jsBool ((a.params.getD defaultParams).optional) = false) := by
        simpa [Bool.and_eq_true, Bool.not_eq_true'] using hc
      rw [hrest] at ih
      simp only at ih
      simp [execPlanSteps, specExec, hr, hrest, hc, hc2, ← ih]

/-- `specExec` never records more outcomes than there are steps. -/
theorem specExec_length (f : PlanStep → StepRec) :
    ∀ acts : List PlanStep, (specExec f acts).length ≤ acts.length := by
  intro acts
  induction acts with
  | nil => simp [specExec]
  | cons a rest ih =>
    by_cases hc : (recSuccess (f a) = false ∧
        jsBool ((a.params.getD defaultParams).optional) = false)
    · simp [specExec, hc]
      try omega
    · simp [specExec, hc]
      try omega

/-- `specExec` on a non-empty step list records at least the first step. -/
theorem specExec_ne_nil (f : PlanStep → StepRec) (a : PlanStep)
    (rest : List PlanStep) : specExec f (a :: rest) ≠ [] := by
  by_cases hc : (recSuccess (f a) = false ∧
      jsBool ((a.params.getD defaultParams).optional) = false)
  · simp [specExec, hc]
  · simp [specExec, hc]

/-- The recorded outcomes are, type by type and in order, those of the
attempted head segment of the step list. -/
theorem specExec_types (e : Env) (s : AgentState) :
    ∀ acts : List PlanStep,
      (specExec (fun a => (runPlanStep e s a).1) acts).map recType
        = (acts.take (specExec (fun a => (runPlanStep e s a).1) acts).length).map
            PlanStep.type := by
  intro acts
  induction acts with
  | nil => simp [specExec]
  | cons a rest ih =>
    by_cases hc : (recSuccess ((fun a => (runPlanStep e s a).1) a) = false ∧
        jsBool ((a.params.getD defaultParams).optional) = false)
    · simp [specExec, hc, runPlanStep_type]
    · simp only [specExec, if_neg hc, List.map_cons, List.length_cons,
        List.take_succ_cons, runPlanStep_type]
      exact congrArg (a.type :: ·) ih

/-- C2 (amended): `executePlan` interprets `plan.actions` in order with the
spec-side semantics `specExec` — record each attempted step's outcome and
stop right after a failed step whose `optional` flag, read from the step's
`params` mapping (not from a step-level field), is not set — so
`data.actions` is exactly the in-order attempted head segment (its types are
those of the steps attempted, its length never exceeds the plan's, and a
non-empty plan records at least one outcome), and the overall `success` is
true iff every attempted step succeeded. -/
theorem c2_execute_plan (e : Env) (s : AgentState) (plan : Plan) :
    stepsOf (executePlan e s plan).1.data
        = specExec (fun a => (runPlanStep e s a).1) (plan.actions.getD []) ∧
    (executePlan e s plan).1.success
        = (stepsOf (executePlan e s plan).1.data).all recSuccess ∧
    (executePlan e s plan).1.error = none ∧
    (stepsOf (executePlan e s plan).1.data).length ≤ (plan.actions.getD []).length ∧
    (stepsOf (executePlan e s plan).1.data).map recType
        = ((plan.actions.getD []).take
            (stepsOf (executePlan e s plan).1.data).length).map PlanStep.type ∧
    (plan.actions.getD [] ≠ [] → stepsOf (executePlan e s plan).1.data ≠ []) := by
  have hsteps : stepsOf (executePlan e s plan).1.data
      = (execPlanSteps e s (plan.actions.getD [])).1 := by
    rcases hE : execPlanSteps e s (plan.actions.getD []) with ⟨rs, tr⟩
    simp [executePlan, hE, stepsOf]
  have heq := execPlanSteps_eq_specExec e s (plan.actions.getD [])
  refine ⟨?_, ?_, ?_, ?_, ?_, ?_⟩
  · rw [hsteps, heq]
  · rcases hE : execPlanSteps e s (plan.actions.getD []) with ⟨rs, tr⟩
    simp [executePlan, hE, stepsOf]
  · rcases hE : execPlanSteps e s (plan.actions.getD []) with ⟨rs, tr⟩
    simp [executePlan, hE]
  · rw [hsteps, heq]
    exact specExec_length _ _
  · rw [hsteps, heq]
    exact specExec_types e s _
  · intro hne
    rw [hsteps, heq]
    rcases hA : plan.actions.getD [] with _ | ⟨a, rest⟩
    · exact absurd hA hne
    · exact specExec_ne_nil _ a rest

/-- C2 witness: the interpreter characterization instantiated on the
fallback plan. -/
theorem c2_execute_plan_witness :
    (executePlan envOk initState mockPlan).1.success
      = (stepsOf (executePlan envOk initState mockPlan).1.data).all recSuccess :=
  (c2_execute_plan envOk initState mockPlan).2.1

/-- First step of the counterexample plan: an unsupported type (so the step
fails) with `optional: true` inside `params` and no step-level `optional`
field. -/
def cexStep1 : PlanStep := ⟨"zzz", some ⟨none, none, none, some true⟩, none⟩

/-- Second step of the counterexample plan. -/
def cexStep2 : PlanStep := ⟨"zzz", some ⟨none, none, none, none⟩, none⟩

/-- The counterexample plan. -/
def cexPlan : Plan := ⟨some [cexStep1, cexStep2]⟩

/-- C2 counterexample: the first step of `cexPlan` fails and its step-level
`optional` flag — the flag of the claim's step shape `{type, params,
optional?}` — is not set, so the claim demands that execution stop with
exactly one recorded outcome; the interpreter instead consults
`params.optional`, continues, and records two outcomes. -/
theorem c2_cex :
    recSuccess (runPlanStep envOk initState cexStep1).1 = false ∧
    cexStep1.optional = none ∧
    (stepsOf (executePlan envOk initState cexPlan).1.data).length = 2 ∧
    ¬ (stepsOf (executePlan envOk initState cexPlan).1.data).length = 1 :=
  ⟨rfl, rfl, rfl, by decide⟩

/-! ### Claim C9 -/

/-- `decChars` renders exactly the decimal digits, most significant first,
whenever the fuel suffices. -/
theorem decChars_eq (fuel : Nat) :
    ∀ n : Nat, n ≤ fuel → decChars fuel n = ((Nat.digits 10 n).map digitChar).reverse := by
  induction fuel with
  | zero =>
    intro n h
    have hn : n = 0 := Nat.le_zero.mp h
    subst hn
    simp [decChars]
  | succ fuel ih =>
    intro n h
    by_cases hn : n = 0
    · subst hn
      simp [decChars]
    · have hpos : 0 < n := Nat.pos_of_ne_zero hn
      have hdig := Nat.digits_def' (b := 10) (by norm_num) hpos
      have hdiv : n / 10 ≤ fuel := by
        have := Nat.div_lt_self hpos (by norm_num : 1 < 10)
        omega
      simp [decChars, hn, hdig, ih _ hdiv]

/-- The characters of `decStr n`. -/
theorem decStr_data (n : Nat) :
    (decStr n).data
      = if n = 0 then ['0'] else ((Nat.digits 10 n).map digitChar).reverse := by
  by_cases hn : n = 0
  · subst hn
    simp [decStr]
  · simp [decStr, hn, decChars_eq n n le_rfl]

/-- `digitChar` is injective on decimal digits. -/
theorem digitChar_lt_inj (a b : Nat) (ha : a < 10) (hb : b < 10)
    (h : digitChar a = digitChar b) : a = b := by
  interval_cases a <;> interval_cases b <;> revert h <;> decide

/-- `digitChar` of a decimal digit is a digit character. -/
theorem digitChar_isDigit (a : Nat) (ha : a < 10) : (digitChar a).isDigit = true := by
  interval_cases a <;> decide

/-- Mapping `digitChar` over decimal-digit lists is injective. -/
theorem map_digitChar_inj : ∀ l1 l2 : List Nat,
    (∀ d ∈ l1, d < 10) → (∀ d ∈ l2, d < 10) →
    l1.map digitChar = l2.map digitChar → l1 = l2 := by
  intro l1
  induction l1 with
  | nil =>
    intro l2 _ _ h
    cases l2 <;> simp_all
  | cons d l ih =>
    intro l2 h1 h2 h
    cases l2 with
    | nil => simp_all
    | cons d2 l2t =>
      simp only [List.map_cons, List.cons.injEq] at h
      have hd : d = d2 :=
        digitChar_lt_inj d d2 (h1 d (by simp)) (h2 d2 (by simp)) h.1
      have hl : l = l2t :=
        ih l2t (fun x hx => h1 x (by simp [hx])) (fun x hx => h2 x (by simp [hx])) h.2
      simp [hd, hl]

/-- `decStr` is injective: distinct numbers render to distinct strings. -/
theorem decStr_inj (m n : Nat) (h : decStr m = decStr n) : m = n := by
  have hdata := congrArg String.data h
  rw [decStr_data, decStr_data] at hdata
  by_cases hm : m = 0 <;> by_cases hn : n = 0
  · omega
  · exfalso
    simp only [hm, hn, if_pos rfl, if_neg hn] at hdata
    have hrev : (Nat.digits 10 n).map digitChar = ['0'] := by
      have := congrArg List.reverse hdata
      simpa using this.symm
    have hdig : Nat.digits 10 n = [0] := by
      apply map_digitChar_inj _ [0]
      · intro d hd
        exact Nat.digits_lt_base (by norm_num) hd
      · intro d hd
        simp at hd
        omega
      · simpa using hrev
    have hofd := Nat.ofDigits_digits 10 n
    rw [hdig] at hofd
    simp [Nat.ofDigits] at hofd
    omega
  · exfalso
    simp only [hm, hn, if_pos rfl, if_neg hm] at hdata
    have hrev : (Nat.digits 10 m).map digitChar = ['0'] := by
      have := congrArg List.reverse hdata
      simpa using this
    have hdig : Nat.digits 10 m = [0] := by
      apply map_digitChar_inj _ [0]
      · intro d hd
        exact Nat.digits_lt_base (by norm_num) hd
      · intro d hd
        simp at hd
        omega
      · simpa using hrev
    have hofd := Nat.ofDigits_digits 10 m
    rw [hdig] at hofd
    simp [Nat.ofDigits] at hofd
    omega
  · simp only [if_neg hm, if_neg hn] at hdata
    have h2 : (Nat.digits 10 m).map digitChar = (Nat.digits 10 n).map digitChar := by
      have := congrArg List.reverse hdata
      simpa using this
    have h3 : Nat.digits 10 m = Nat.digits 10 n :=
      map_digitChar_inj _ _ (fun d hd => Nat.digits_lt_base (by norm_num) hd)
        (fun d hd => Nat.digits_lt_base (by norm_num) hd) h2
    have := congrArg (Nat.ofDigits 10) h3
    simpa [Nat.ofDigits_digits] using this

/-- Every character of `decStr n` is a digit. -/
theorem decStr_digits (n : Nat) : ∀ c ∈ (decStr n).data, c.isDigit = true := by
  intro c hc
  rw [decStr_data] at hc
  by_cases hn : n = 0
  · simp [hn] at hc
    subst hc
    decide
  · simp only [if_neg hn, List.mem_reverse, List.mem_map] at hc
    rcases hc with ⟨d, hd, rfl⟩
    exact digitChar_isDigit d (Nat.digits_lt_base (by norm_num) hd)

/-- Splitting a character list at the first dash: if the two segments before
the dash are digit-only, equality of the joined lists forces equality of the
parts. -/
theorem splitAtDash : ∀ (a1 b1 a2 b2 : List Char),
    (∀ c ∈ a1, c.isDigit = true) → (∀ c ∈ a2, c.isDigit = true) →
    a1 ++ '-' :: b1 = a2 ++ '-' :: b2 → a1 = a2 ∧ b1 = b2 := by
  intro a1
  induction a1 with
  | nil =>
    intro b1 a2 b2 _ h2 h
    cases a2 with
    | nil => simpa using h
    | cons c a2t =>
      exfalso
      simp only [List.nil_append, List.cons_append, List.cons.injEq] at h
      have hcd : c.isDigit = true := h2 c (by simp)
      rw [← h.1] at hcd
      exact absurd hcd (by decide)
  | cons c a1t ih =>
    intro b1 a2 b2 h1 h2 h
    cases a2 with
    | nil =>
      exfalso
      simp only [List.nil_append, List.cons_append, List.cons.injEq] at h
      have hcd : c.isDigit = true := h1 c (by simp)
      rw [h.1] at hcd
      exact absurd hcd (by decide)
    | cons c2 a2t =>
      simp only [List.cons_append, List.cons.injEq] at h
      obtain ⟨hc, hrest⟩ := h
      obtain ⟨ha, hb⟩ := ih b1 a2t b2 (fun x hx => h1 x (by simp [hx]))
        (fun x hx => h2 x (by simp [hx])) hrest
      exact ⟨by simp [hc, ha], hb⟩

/-- Two screenshot filenames under the same prefix agree only if their
counters agree (the timestamp and counter segments are digit-only and
separated by dashes). -/
theorem filename_counter_inj (P : List Char) (t1 c1 t2 c2 : Nat)
    (h : P ++ ((decStr t1).data ++ '-' :: ((decStr c1).data ++ ".jpg".data))
       = P ++ ((decStr t2).data ++ '-' :: ((decStr c2).data ++ ".jpg".data))) :
    c1 = c2 := by
  have h1 := List.append_cancel_left h
  obtain ⟨-, hb⟩ := splitAtDash _ _ _ _ (decStr_digits t1) (decStr_digits t2) h1
  have hdd := List.append_cancel_right hb
  exact decStr_inj c1 c2 (String.ext hdd)

/-- The characters of a saved screenshot path, split at the decimal
segments. -/
theorem save_path_shape (dir : String) (t c : Nat) :
    (pathJoin (pathJoin dir "screenshots")
        ("screenshot-" ++ decStr t ++ "-" ++ decStr c ++ ".jpg")).data
      = (dir.data ++ "/".data ++ "screenshots".data ++ "/".data ++ "screenshot-".data)
        ++ ((decStr t).data ++ '-' :: ((decStr c).data ++ ".jpg".data)) := by
  have hdash : ("-" : String).data = ['-'] := rfl
  simp [pathJoin, String.data_append, hdash, List.append_assoc]

/-- C9 (amended): every screenshot write that reaches the filesystem has the
path `<outputDir>/screenshots/screenshot-<epoch_ms>-<counter>.jpg`, the
write bumps the per-agent counter by one, and two writes by one agent have
distinct filenames as long as the counter has not decreased between them —
the counter only grows across writes, but `initialize()` resets it, so
distinctness across a re-initialization relies on differing timestamps. -/
theorem c9_screenshot_paths (dir : String) (e1 e2 : Env) (s1 s2 : AgentState)
    (h1 : (saveScreenshot dir e1 s1).1 ≠ "")
    (h2 : (saveScreenshot dir e2 s2).1 ≠ "")
    (hmono : (saveScreenshot dir e1 s1).2.screenshotCounter ≤ s2.screenshotCounter) :
    (saveScreenshot dir e1 s1).1
      = pathJoin (pathJoin dir "screenshots")
          ("screenshot-" ++ decStr (e1.now s1.timeIdx) ++ "-"
            ++ decStr (s1.screenshotCounter + 1) ++ ".jpg") ∧
    (saveScreenshot dir e1 s1).2.screenshotCounter = s1.screenshotCounter + 1 ∧
    (saveScreenshot dir e1 s1).1 ≠ (saveScreenshot dir e2 s2).1 := by
  have hd : ¬ dir = "" := by
    intro hd
    apply h1
    simp [saveScreenshot, hd]
  have hm1 : e1.mkdirOk = true := by
    by_contra hm
    apply h1
    simp [saveScreenshot, hd, hm]
  have hw1 : e1.writeOk = true := by
    by_contra hw
    apply h1
    simp [saveScreenshot, hd, hm1, hw]
  have hm2 : e2.mkdirOk = true := by
    by_contra hm
    apply h2
    simp [saveScreenshot, hd, hm]
  have hw2 : e2.writeOk = true := by
    by_contra hw
    apply h2
    simp [saveScreenshot, hd, hm2, hw]
  have hp1 : (saveScreenshot dir e1 s1).1
      = pathJoin (pathJoin dir "screenshots")
          ("screenshot-" ++ decStr (e1.now s1.timeIdx) ++ "-"
            ++ decStr (s1.screenshotCounter + 1) ++ ".jpg") := by
    simp [saveScreenshot, hd, hm1, hw1]
  have hc1 : (saveScreenshot dir e1 s1).2.screenshotCounter
      = s1.screenshotCounter + 1 := by
    simp [saveScreenshot, hd, hm1, hw1]
  have hp2 : (saveScreenshot dir e2 s2).1
      = pathJoin (pathJoin dir "screenshots")
          ("screenshot-" ++ decStr (e2.now s2.timeIdx) ++ "-"
            ++ decStr (s2.screenshotCounter + 1) ++ ".jpg") := by
    simp [saveScreenshot, hd, hm2, hw2]
  refine ⟨hp1, hc1, ?_⟩
  rw [hp1, hp2]
  intro heq
  have hdata := congrArg String.data heq
  rw [save_path_shape, save_path_shape] at hdata
  have hcc := filename_counter_inj _ _ _ _ _ hdata
  rw [hc1] at hmono
  omega

/-- C9 witness: two consecutive writes by one agent produce distinct
filenames. -/
theorem c9_screenshot_paths_witness :
    (saveScreenshot "out" envOk initState).1
      ≠ (saveScreenshot "out" envOk (saveScreenshot "out" envOk initState).2).1 :=
  (c9_screenshot_paths "out" envOk envOk initState
    (saveScreenshot "out" envOk initState).2
    (by decide) (by decide) (by decide)).2.2

/-- C9 counterexample: one agent, all operations succeeding, clock reading
1000 at every call — `initialize()`, a screenshot write, `initialize()`
again (which resets the counter), and a second write produce the *same*
filename, refuting the claim that any two screenshot writes by one agent
have distinct filenames. -/
theorem c9_cex :
    (saveScreenshot "out" envOk (aiInitAgent defOpts envOk freshState).2.1).1
      = "out/screenshots/screenshot-1000-1.jpg" ∧
    (saveScreenshot "out" envOk
        (aiInitAgent defOpts envOk
          (saveScreenshot "out" envOk (aiInitAgent defOpts envOk freshState).2.1).2).2.1).1
      = "out/screenshots/screenshot-1000-1.jpg" :=
  ⟨rfl, rfl⟩

end Crawler
